import Mathlib

/-!
Verification of the element/container/surface scene-graph subsystem of the
wlmaker widget toolkit, as implemented in src/toolkit/surface.c and
src/toolkit/element.h.  External wlroots collaborators (scene graph, seat)
are modelled as explicit parameters; machine pointers become Option-typed
handles identified by natural numbers; seat side effects become explicit
lists of emitted notifications; the fatal BS_ASSERT checks become the none
case of an Option-valued result.
-/

/- ================= Basic event types (button.h, as used by surface.c) ==== -/

/-- Button event types used by surface.c: WLMTK_BUTTON_DOWN, WLMTK_BUTTON_UP,
and the further types (click, double-click) that the button dispatcher does
not forward. -/
inductive ButtonEventType where
  | down
  | up
  | click
  | doubleClick
deriving DecidableEq, Repr

/-- Button event payload: the fields of wlmtk_button_event_t that
surface.c reads (button code, type, time_msec). -/
structure ButtonEvent where
  button : Nat
  type : ButtonEventType
  time_msec : Nat
deriving DecidableEq, Repr

/-- Notification sent to the wlr_seat, recording the calls surface.c makes:
wlr_seat_pointer_notify_enter, wlr_seat_pointer_notify_motion,
wlr_seat_pointer_notify_button (pressed = true for WLR_BUTTON_PRESSED). -/
inductive SeatNotification where
  | enter (surface : Nat) (x y : Int)
  | motion (time_msec : Nat) (x y : Int)
  | button (time_msec : Nat) (btn : Nat) (pressed : Bool)
deriving DecidableEq, Repr

/- ================= Surface state and size negotiation (surface.c) ======= -/

/-- State of wlmtk_surface_t relevant to size negotiation and teardown:
the backing wlr_surface handle (none models a NULL pointer), the committed
width/height, and whether surface_commit_listener is currently linked into
the backing region's commit signal list.  The destroy-subscription held by
the super element (its wlr_scene_node_destroy_listener) is tracked too. -/
structure wlmtk_surface_t where
  wlr_surface_ptr : Option Nat
  committed_width : Int
  committed_height : Int
  commit_subscribed : Bool
  node_destroy_subscribed : Bool
deriving DecidableEq, Repr

/-- Translation of wlmtk_surface_init (surface.c lines 74-97): memset the
struct to zero, run the element init, store the backing handle, and connect
the commit listener exactly when a backing region is given.
Modelled from the spec: wlmtk_element_init lives in element.c, which is not
in the sources; per the spec it installs the table, zeroes state and fails
only on a violated precondition on the table, so with the fixed vmt of
surface.c it succeeds.  The Bool result is the init return value. -/
def wlmtk_surface_init (wlr_surface : Option Nat) : Bool × wlmtk_surface_t :=
  (true,
   { wlr_surface_ptr := wlr_surface
     committed_width := 0
     committed_height := 0
     commit_subscribed := wlr_surface.isSome
     node_destroy_subscribed := false })

/-- Translation of _wlmtk_surface_commit_size (surface.c lines 348-358):
the serial parameter is accepted but ignored (the source reads
`serial = serial;  // FIXME`), and the committed width/height are
overwritten with the given values. -/
def wlmtk_surface_commit_size
    (s : wlmtk_surface_t) (_serial : Nat) (width height : Int) :
    wlmtk_surface_t :=
  { s with committed_width := width, committed_height := height }

/-- Translation of handle_surface_commit (surface.c lines 367-379): commits
the backing region's current width/height, passing serial 0 (the source
comment reads `0,  // FIXME: Where do we get the serial from?`). -/
def handle_surface_commit
    (s : wlmtk_surface_t) (current_width current_height : Int) :
    wlmtk_surface_t :=
  wlmtk_surface_commit_size s 0 current_width current_height

/-- Firing of the backing region's commit signal: the handler runs only when
the surface's listener is linked into the signal's list. -/
def commit_signal_fire
    (s : wlmtk_surface_t) (current_width current_height : Int) :
    wlmtk_surface_t :=
  if s.commit_subscribed then handle_surface_commit s current_width current_height
  else s

/-- Translation of wlmtk_surface_get_size (surface.c lines 132-139). -/
def wlmtk_surface_get_size (s : wlmtk_surface_t) : Int × Int :=
  (s.committed_width, s.committed_height)

/-- Translation of wlmtk_surface_fini (surface.c lines 100-109): when a
backing region is present, the commit listener is unlinked and the handle
cleared; then the element fini runs and the struct is zeroed.
Modelled from the spec: wlmtk_element_fini is in element.c (not in the
sources); per the spec it releases the element's external
destroy-notification subscription.  The commit_subscribed flag records
membership in the external signal list, so the final memset does not by
itself unlink a listener: only the wl_list_remove branch does. -/
def wlmtk_surface_fini (s : wlmtk_surface_t) : wlmtk_surface_t :=
  { wlr_surface_ptr := none
    committed_width := 0
    committed_height := 0
    commit_subscribed := if s.wlr_surface_ptr.isSome then false else s.commit_subscribed
    node_destroy_subscribed := false }

/-- State of wlmtk_fake_surface_t (surface.c lines 381-434): the embedded
surface, the serial to hand out, and the last requested width/height. -/
structure wlmtk_fake_surface_t where
  surface : wlmtk_surface_t
  serial : Nat
  requested_width : Int
  requested_height : Int
deriving DecidableEq, Repr

/-- Translation of wlmtk_fake_surface_create (surface.c lines 394-403):
calloc-zeroed state, surface init with a NULL backing region, vmt extended
with the fake request_size. -/
def wlmtk_fake_surface_create : wlmtk_fake_surface_t :=
  { surface := (wlmtk_surface_init none).2
    serial := 0
    requested_width := 0
    requested_height := 0 }

/-- Translation of _wlmtk_fake_surface_request_size (surface.c lines
424-434): records the requested width/height and returns the fake's
serial.  Modelled from the spec: the public wlmtk_surface_request_size
dispatcher lives in surface.h (not in the sources) and merely forwards to
the vmt entry, which for a fake surface is this function. -/
def wlmtk_fake_surface_request_size
    (fs : wlmtk_fake_surface_t) (width height : Int) :
    Nat × wlmtk_fake_surface_t :=
  (fs.serial, { fs with requested_width := width, requested_height := height })

/-- Translation of wlmtk_fake_surface_commit (surface.c lines 413-420):
commits the previously requested width/height with the fake's serial. -/
def wlmtk_fake_surface_commit (fs : wlmtk_fake_surface_t) : wlmtk_fake_surface_t :=
  { fs with
    surface := wlmtk_surface_commit_size
      fs.surface fs.serial fs.requested_width fs.requested_height }

/- ================= Theorems for C1 and C4 =============================== -/

/-- C1: wlmtk_surface_init sets committed_size to (0,0) and succeeds even
with no backing region; request_size returns the backing's serial token and
leaves committed_size unchanged; after a commit fires, committed_size equals
the backing's current (width, height) exactly; concretely, on a fake backing
with serial 42, request_size(200,100) returns 42, get_size still yields
(0,0), and after the fake commit get_size yields (200,100). -/
theorem surface_size_negotiation_spec :
    (∀ b : Option Nat, (wlmtk_surface_init b).1 = true ∧
      wlmtk_surface_get_size (wlmtk_surface_init b).2 = (0, 0)) ∧
    (∀ (fs : wlmtk_fake_surface_t) (w h : Int),
      (wlmtk_fake_surface_request_size fs w h).1 = fs.serial ∧
      wlmtk_surface_get_size (wlmtk_fake_surface_request_size fs w h).2.surface =
        wlmtk_surface_get_size fs.surface) ∧
    (∀ (s : wlmtk_surface_t) (cw ch : Int),
      wlmtk_surface_get_size (handle_surface_commit s cw ch) = (cw, ch)) ∧
    (∀ fs : wlmtk_fake_surface_t,
      wlmtk_surface_get_size (wlmtk_fake_surface_commit fs).surface =
        (fs.requested_width, fs.requested_height)) ∧
    ((wlmtk_fake_surface_request_size
        { wlmtk_fake_surface_create with serial := 42 } 200 100).1 = 42 ∧
     wlmtk_surface_get_size
        (wlmtk_fake_surface_request_size
          { wlmtk_fake_surface_create with serial := 42 } 200 100).2.surface =
        (0, 0) ∧
     wlmtk_surface_get_size
        (wlmtk_fake_surface_commit
          (wlmtk_fake_surface_request_size
            { wlmtk_fake_surface_create with serial := 42 } 200 100).2).surface =
        (200, 100)) := by
  refine ⟨fun b => ⟨rfl, rfl⟩, fun fs w h => ⟨rfl, rfl⟩,
    fun s cw ch => rfl, fun fs => rfl, rfl, rfl, rfl⟩

/-- C4: the serial/acknowledgment token has no effect on the committed
state: committing with any serial s1 yields exactly the same surface state
as committing with any serial s2. -/
theorem commit_size_serial_independent
    (s : wlmtk_surface_t) (s1 s2 : Nat) (w h : Int) :
    wlmtk_surface_commit_size s s1 w h = wlmtk_surface_commit_size s s2 w h := by
  rfl

/- ================= Theorem for C8 ======================================= -/

/-- C8: after wlmtk_surface_fini, the commit-notification subscription has
been removed, the backing handle is cleared, the element's scene-node
destroy subscription is released, and a commit signal firing afterwards is
never delivered (the state is unchanged).  The hypothesis is the invariant
established by wlmtk_surface_init: the commit listener is linked only while
a backing region is held. -/
theorem surface_fini_no_dangling_subscription
    (s : wlmtk_surface_t)
    (hsub : s.commit_subscribed = true → s.wlr_surface_ptr.isSome) :
    (wlmtk_surface_fini s).commit_subscribed = false ∧
    (wlmtk_surface_fini s).wlr_surface_ptr = none ∧
    (wlmtk_surface_fini s).node_destroy_subscribed = false ∧
    (∀ cw ch : Int,
      commit_signal_fire (wlmtk_surface_fini s) cw ch = wlmtk_surface_fini s) := by
  have hflag : (wlmtk_surface_fini s).commit_subscribed = false := by
    simp only [wlmtk_surface_fini]
    by_cases hb : s.wlr_surface_ptr.isSome
    · simp [hb]
    · simp only [hb, if_false]
      cases hcs : s.commit_subscribed
      · rfl
      · exact absurd (hsub hcs) hb
  refine ⟨hflag, rfl, rfl, fun cw ch => ?_⟩
  simp [commit_signal_fire, hflag]

/-- C8 witness: the invariant holds for a surface initialized with backing
handle 7, and fini on it removes the subscription, clears the handle and
makes a later commit firing a no-op. -/
theorem surface_fini_no_dangling_subscription_witness :
    ((wlmtk_surface_init (some 7)).2.commit_subscribed = true →
      (wlmtk_surface_init (some 7)).2.wlr_surface_ptr.isSome) ∧
    ((wlmtk_surface_fini (wlmtk_surface_init (some 7)).2).commit_subscribed = false ∧
     (wlmtk_surface_fini (wlmtk_surface_init (some 7)).2).wlr_surface_ptr = none ∧
     (wlmtk_surface_fini (wlmtk_surface_init (some 7)).2).node_destroy_subscribed = false ∧
     (∀ cw ch : Int,
       commit_signal_fire (wlmtk_surface_fini (wlmtk_surface_init (some 7)).2) cw ch =
         wlmtk_surface_fini (wlmtk_surface_init (some 7)).2)) :=
  ⟨fun _ => by decide,
   surface_fini_no_dangling_subscription (wlmtk_surface_init (some 7)).2
     (fun _ => by decide)⟩

/- ================= Element button dispatch (element.h) ================== -/

/-- Capability table of an element as far as the optional pointer_button
entry is concerned (element.h, struct _wlmtk_element_impl_t lines 126-128):
the entry is a nullable function pointer, modelled as an Option. -/
structure wlmtk_element_impl_t where
  pointer_button : Option (ButtonEvent → Bool)

/-- Translation of wlmtk_element_pointer_button (element.h lines 293-300):
if the capability table has no pointer_button entry, return false; else
return exactly the capability's result. -/
def wlmtk_element_pointer_button
    (impl : wlmtk_element_impl_t) (ev : ButtonEvent) : Bool :=
  match impl.pointer_button with
  | none => false
  | some f => f ev

/-- C7: with no pointer_button entry in the capability table the dispatcher
returns false (event unconsumed) and does nothing else; with an entry
present it returns exactly the capability's result. -/
theorem element_pointer_button_optional
    (impl : wlmtk_element_impl_t) (ev : ButtonEvent) :
    (impl.pointer_button = none → wlmtk_element_pointer_button impl ev = false) ∧
    (∀ f : ButtonEvent → Bool, impl.pointer_button = some f →
      wlmtk_element_pointer_button impl ev = f ev) := by
  constructor
  · intro hnone
    simp [wlmtk_element_pointer_button, hnone]
  · intro f hf
    simp [wlmtk_element_pointer_button, hf]

/-- C7 witness: at a concrete table with no entry the dispatcher yields
false, and at a table whose entry always consumes it yields true. -/
theorem element_pointer_button_optional_witness :
    wlmtk_element_pointer_button ⟨none⟩ ⟨1, .down, 5⟩ = false ∧
    wlmtk_element_pointer_button ⟨some (fun _ => true)⟩ ⟨1, .down, 5⟩ = true :=
  ⟨(element_pointer_button_optional ⟨none⟩ ⟨1, .down, 5⟩).1 rfl,
   (element_pointer_button_optional ⟨some (fun _ => true)⟩ ⟨1, .down, 5⟩).2
     (fun _ => true) rfl⟩

/- ================= Scene attachment algorithm (spec section 4.2) ======== -/

/-- Attachment-relevant state of an element.  parent_tree is the parent
container's scene tree handle when the element has a parent that is itself
attached to the scene graph, none otherwise; scene_node is the element's
node handle paired with the tree it is currently parented under;
destroy_subscribed records the destroy-notification subscription on the
node. -/
structure AttachElement where
  visible : Bool
  parent_tree : Option Nat
  scene_node : Option (Nat × Nat)
  destroy_subscribed : Bool
deriving DecidableEq, Repr

/-- Modelled from the spec: wlmtk_element_attach_to_scene_graph is in
element.c, which is not in the sources; only its contract (element.h lines
178-195) and the spec's attachment algorithm are.  Given a deterministic
create_scene_node capability, the element should be attached iff it is
visible and its parent chain reaches an attached root; on attach with no
node, a node is created under the parent tree and its destroy notification
subscribed; on attach with a node under a different tree, the node is
re-parented; otherwise on detach the handle is dropped and unsubscribed. -/
def wlmtk_element_attach_to_scene_graph
    (create_scene_node : Nat → Nat) (e : AttachElement) : AttachElement :=
  match e.parent_tree, e.visible with
  | some t, true =>
    match e.scene_node with
    | none =>
      { e with scene_node := some (create_scene_node t, t), destroy_subscribed := true }
    | some (n, p) =>
      if p = t then e else { e with scene_node := some (n, t) }
  | _, _ =>
    match e.scene_node with
    | none => e
    | some _ => { e with scene_node := none, destroy_subscribed := false }

/-- C2: the attachment procedure is idempotent: running it twice in a row
with no intervening state change leaves the element's state (scene node
handle, subscription) identical to the state after the first run. -/
theorem attach_to_scene_graph_idempotent
    (create_scene_node : Nat → Nat) (e : AttachElement) :
    wlmtk_element_attach_to_scene_graph create_scene_node
      (wlmtk_element_attach_to_scene_graph create_scene_node e) =
    wlmtk_element_attach_to_scene_graph create_scene_node e := by
  rcases e with ⟨v, pt, sn, sub⟩
  rcases pt with _ | t <;> rcases v <;> rcases sn with _ | ⟨n, p⟩ <;>
    simp [wlmtk_element_attach_to_scene_graph]
  by_cases hp : p = t <;> simp [hp]

/- ================= Pointer routing on the surface (surface.c) =========== -/

/-- External wlroots scene and surface primitives that surface.c calls,
given as explicit oracle functions over node/surface handles:
node_coords is wlr_scene_node_coords (none on failure), node_at is
wlr_scene_node_at (node found below the cursor, with node-local
coordinates), is_buffer tests WLR_SCENE_NODE_BUFFER,
scene_surface_of composes wlr_scene_buffer_from_node with
wlr_scene_surface_try_from_buffer, and root_surface is
wlr_surface_get_root_surface. -/
structure PointerEnv where
  node_coords : Nat → Option (Int × Int)
  node_at : Nat → Int → Int → Option (Nat × Int × Int)
  is_buffer : Nat → Bool
  scene_surface_of : Nat → Option Nat
  root_surface : Nat → Nat

/-- Outcome of a pointer motion on the surface: whether the motion is
within the area (the Bool return), the element's pointer presence cache
after the call, and the seat notifications emitted, in order. -/
structure MotionResult where
  within : Bool
  last_pointer : Option (Int × Int × Nat)
  notifications : List SeatNotification
deriving DecidableEq, Repr

/-- Translation of _wlmtk_surface_element_pointer_motion (surface.c lines
242-293).  scene_node is the element's wlr_scene_node_ptr; backing is the
surface's wlr_surface_ptr.  The call first runs the original super-element
vmt's pointer_motion — modelled from the spec: that default implementation
is in element.c, not in the sources, and per the spec it updates the
pointer presence cache — then performs the scene hit-test chain.  The none
result models the fatal BS_ASSERT that the found scene surface's root is
this surface's backing region. -/
def surface_element_pointer_motion
    (env : PointerEnv) (scene_node backing : Option Nat)
    (x y : Int) (time_msec : Nat) : Option MotionResult :=
  let cache : Option (Int × Int × Nat) := some (x, y, time_msec)
  match scene_node with
  | none => some { within := false, last_pointer := cache, notifications := [] }
  | some node =>
    match env.node_coords node with
    | none => some { within := false, last_pointer := cache, notifications := [] }
    | some (lx, ly) =>
      match env.node_at node (x + lx) (y + ly) with
      | none => some { within := false, last_pointer := cache, notifications := [] }
      | some (n, node_x, node_y) =>
        if env.is_buffer n then
          match env.scene_surface_of n with
          | none => some { within := false, last_pointer := cache, notifications := [] }
          | some ws =>
            if backing = some (env.root_surface ws) then
              some { within := true, last_pointer := cache,
                     notifications := [.enter ws node_x node_y,
                                       .motion time_msec node_x node_y] }
            else none
        else some { within := false, last_pointer := cache, notifications := [] }

/-- Specification-side hit test: the concrete drawable sub-region (a scene
surface with node-local coordinates) lying under the cursor, if any: the
element has a scene node, its layout coordinates resolve, a node lies below
the adjusted cursor position, that node is a buffer, and the buffer carries
a scene surface. -/
def found_sub_region
    (env : PointerEnv) (scene_node : Option Nat) (x y : Int) :
    Option (Nat × Int × Int) :=
  match scene_node with
  | none => none
  | some node =>
    match env.node_coords node with
    | none => none
    | some (lx, ly) =>
      match env.node_at node (x + lx) (y + ly) with
      | none => none
      | some (n, node_x, node_y) =>
        if env.is_buffer n then
          match env.scene_surface_of n with
          | none => none
          | some ws => some (ws, node_x, node_y)
        else none

/-- C3: whenever pointer_motion completes (the consistency assertion
passes), the presence cache is updated first in every case, the Bool result
is true exactly when a concrete drawable sub-region lies under the cursor,
and in that case the seat is notified of enter and then motion for that
exact sub-region; in every other case nothing is sent to the seat. -/
theorem surface_pointer_motion_spec
    (env : PointerEnv) (scene_node backing : Option Nat)
    (x y : Int) (time_msec : Nat) (r : MotionResult)
    (h : surface_element_pointer_motion env scene_node backing x y time_msec = some r) :
    r.last_pointer = some (x, y, time_msec) ∧
    r.within = (found_sub_region env scene_node x y).isSome ∧
    (match found_sub_region env scene_node x y with
     | some (ws, nx, ny) =>
        r.notifications = [.enter ws nx ny, .motion time_msec nx ny]
     | none => r.notifications = []) := by
  rcases scene_node with _ | node
  · simp only [surface_element_pointer_motion] at h
    injection h with h
    subst h
    simp [found_sub_region]
  · simp only [surface_element_pointer_motion] at h
    rcases hc : env.node_coords node with _ | ⟨lx, ly⟩ <;>
      simp only [hc] at h
    · injection h with h
      subst h
      simp [found_sub_region, hc]
    · rcases ha : env.node_at node (x + lx) (y + ly) with _ | ⟨n, nx, ny⟩ <;>
        simp only [ha] at h
      · injection h with h
        subst h
        simp [found_sub_region, hc, ha]
      · rcases hb : env.is_buffer n <;> simp only [hb] at h
        · rw [if_neg (by simp)] at h
          injection h with h
          subst h
          simp [found_sub_region, hc, ha, hb]
        · rw [if_pos trivial] at h
          rcases hs : env.scene_surface_of n with _ | ws <;> simp only [hs] at h
          · injection h with h
            subst h
            simp [found_sub_region, hc, ha, hb, hs]
          · by_cases hr : backing = some (env.root_surface ws)
            · rw [if_pos hr] at h
              injection h with h
              subst h
              simp [found_sub_region, hc, ha, hb, hs]
            · rw [if_neg hr] at h
              exact absurd h (by simp)

/-- Concrete scene environment for exercising the pointer motion path: the
single scene node 0 resolves to layout coordinates (1,2), the node below
the cursor is node 7 at node-local (3,4), node 7 is a buffer carrying scene
surface 9, and every surface's root is surface 5. -/
def env_hit : PointerEnv :=
  { node_coords := fun _ => some (1, 2)
    node_at := fun _ _ _ => some (7, 3, 4)
    is_buffer := fun _ => true
    scene_surface_of := fun _ => some 9
    root_surface := fun _ => 5 }

/-- Result of the concrete pointer motion in env_hit at (10,20), time 30. -/
def motion_hit_result : MotionResult :=
  { within := true
    last_pointer := some (10, 20, 30)
    notifications := [.enter 9 3 4, .motion 30 3 4] }

/-- C3 witness: on the concrete hit environment with backing surface 5, the
pointer motion completes with the presence cache updated, result true, and
enter followed by motion for scene surface 9 at (3,4). -/
theorem surface_pointer_motion_spec_witness :
    motion_hit_result.last_pointer = some (10, 20, 30) ∧
    motion_hit_result.within = (found_sub_region env_hit (some 0) 10 20).isSome ∧
    (match found_sub_region env_hit (some 0) 10 20 with
     | some (ws, nx, ny) =>
        motion_hit_result.notifications =
          [.enter ws nx ny, .motion 30 nx ny]
     | none => motion_hit_result.notifications = []) :=
  surface_pointer_motion_spec env_hit (some 0) (some 5) 10 20 30
    motion_hit_result (by decide)

/-- Translation of _wlmtk_surface_element_pointer_button (surface.c lines
307-337).  focused_surface is the seat's pointer_state.focused_surface;
backing is the surface's wlr_surface_ptr.  With no focused surface the
event is unconsumed; the BS_ASSERT that the focused surface's root equals
the backing region is the none result; only WLMTK_BUTTON_DOWN and
WLMTK_BUTTON_UP are forwarded to the seat, as pressed respectively
released, and consume the event. -/
def surface_element_pointer_button
    (root_surface : Nat → Nat) (focused_surface backing : Option Nat)
    (ev : ButtonEvent) : Option (Bool × List SeatNotification) :=
  match focused_surface with
  | none => some (false, [])
  | some f =>
    if backing = some (root_surface f) then
      match ev.type with
      | .down => some (true, [.button ev.time_msec ev.button true])
      | .up => some (true, [.button ev.time_msec ev.button false])
      | _ => some (false, [])
    else none

/-- C5: with no focused region pointer_button returns false without
forwarding; with a focused region whose root differs from this surface's
backing region the fatal assertion fires (no result); when upstream focus
tracking is consistent — the focused region's root equals the backing —
the assertion branch is unreachable and the call completes. -/
theorem surface_pointer_button_focus_assert
    (root_surface : Nat → Nat) (focused_surface backing : Option Nat)
    (ev : ButtonEvent) :
    (focused_surface = none →
      surface_element_pointer_button root_surface focused_surface backing ev =
        some (false, [])) ∧
    (∀ f : Nat, focused_surface = some f → backing ≠ some (root_surface f) →
      surface_element_pointer_button root_surface focused_surface backing ev =
        none) ∧
    (∀ f : Nat, focused_surface = some f → backing = some (root_surface f) →
      (surface_element_pointer_button root_surface focused_surface backing ev).isSome) := by
  refine ⟨fun hn => ?_, fun f hf hne => ?_, fun f hf heq => ?_⟩
  · subst hn
    rfl
  · subst hf
    simp [surface_element_pointer_button, hne]
  · subst hf
    simp only [surface_element_pointer_button, heq, if_pos rfl]
    cases ev.type <;> simp

/-- C5 witness: with root_surface adding one, the three cases at concrete
inputs: no focused region yields false; focused region 3 with backing 99
(mismatching root 4) hits the assertion; focused region 3 with backing 4
completes. -/
theorem surface_pointer_button_focus_assert_witness :
    surface_element_pointer_button (fun n => n + 1) none (some 99)
      ⟨1, .down, 5⟩ = some (false, []) ∧
    surface_element_pointer_button (fun n => n + 1) (some 3) (some 99)
      ⟨1, .down, 5⟩ = none ∧
    (surface_element_pointer_button (fun n => n + 1) (some 3) (some 4)
      ⟨1, .down, 5⟩).isSome :=
  ⟨(surface_pointer_button_focus_assert (fun n => n + 1) none (some 99)
      ⟨1, .down, 5⟩).1 rfl,
   (surface_pointer_button_focus_assert (fun n => n + 1) (some 3) (some 99)
      ⟨1, .down, 5⟩).2.1 3 rfl (by decide),
   (surface_pointer_button_focus_assert (fun n => n + 1) (some 3) (some 4)
      ⟨1, .down, 5⟩).2.2 3 rfl (by decide)⟩

/-- C9: when the consistency assertion passes, only BUTTON_DOWN and
BUTTON_UP events are forwarded to the seat — as pressed respectively
released — and the event is consumed exactly then; every other event type
yields false with nothing sent to the seat. -/
theorem surface_pointer_button_event_types
    (root_surface : Nat → Nat) (f : Nat) (backing : Option Nat)
    (ev : ButtonEvent) (h : backing = some (root_surface f)) :
    (ev.type = .down →
      surface_element_pointer_button root_surface (some f) backing ev =
        some (true, [.button ev.time_msec ev.button true])) ∧
    (ev.type = .up →
      surface_element_pointer_button root_surface (some f) backing ev =
        some (true, [.button ev.time_msec ev.button false])) ∧
    (ev.type ≠ .down → ev.type ≠ .up →
      surface_element_pointer_button root_surface (some f) backing ev =
        some (false, [])) := by
  subst h
  refine ⟨fun hd => ?_, fun hu => ?_, fun hnd hnu => ?_⟩
  · simp only [surface_element_pointer_button, hd]
    rw [if_pos trivial]
  · simp only [surface_element_pointer_button, hu]
    rw [if_pos trivial]
  · simp only [surface_element_pointer_button, if_pos rfl]
    cases hty : ev.type
    · exact absurd hty hnd
    · exact absurd hty hnu
    · rfl
    · rfl

/-- C9 witness: with root 3 mapping to 4 and backing 4: a down event is
forwarded pressed and consumed, an up event forwarded released, and a
click event is unconsumed with nothing sent. -/
theorem surface_pointer_button_event_types_witness :
    (surface_element_pointer_button (fun n => n + 1) (some 3) (some 4)
      ⟨1, .down, 5⟩ = some (true, [.button 5 1 true])) ∧
    (surface_element_pointer_button (fun n => n + 1) (some 3) (some 4)
      ⟨1, .up, 5⟩ = some (true, [.button 5 1 false])) ∧
    (surface_element_pointer_button (fun n => n + 1) (some 3) (some 4)
      ⟨1, .click, 5⟩ = some (false, [])) :=
  ⟨(surface_pointer_button_event_types (fun n => n + 1) 3 (some 4)
      ⟨1, .down, 5⟩ (by decide)).1 rfl,
   (surface_pointer_button_event_types (fun n => n + 1) 3 (some 4)
      ⟨1, .up, 5⟩ (by decide)).2.1 rfl,
   (surface_pointer_button_event_types (fun n => n + 1) 3 (some 4)
      ⟨1, .click, 5⟩ (by decide)).2.2 (by decide) (by decide)⟩

/-- Translation of _wlmtk_surface_element_pointer_leave (surface.c lines
208-223): if the seat's focused surface is present and its root surface is
this surface's backing region, the seat's pointer focus is cleared;
otherwise it is left as-is.  The result is the seat's focused surface
after the call. -/
def surface_element_pointer_leave
    (root_surface : Nat → Nat) (focused_surface backing : Option Nat) :
    Option Nat :=
  match focused_surface with
  | none => none
  | some f =>
    if backing = some (root_surface f) then none
    else some f

/-- C6: pointer_leave clears host pointer focus exactly when the currently
focused region is present and its root surface equals this surface's
backing region; with no focused region, or a focused region with a
different root, host focus is left unchanged. -/
theorem surface_pointer_leave_spec
    (root_surface : Nat → Nat) (focused_surface backing : Option Nat) :
    (focused_surface = none →
      surface_element_pointer_leave root_surface focused_surface backing =
        focused_surface) ∧
    (∀ f : Nat, focused_surface = some f → backing = some (root_surface f) →
      surface_element_pointer_leave root_surface focused_surface backing = none) ∧
    (∀ f : Nat, focused_surface = some f → backing ≠ some (root_surface f) →
      surface_element_pointer_leave root_surface focused_surface backing =
        focused_surface) := by
  refine ⟨fun hn => ?_, fun f hf heq => ?_, fun f hf hne => ?_⟩
  · subst hn
    rfl
  · subst hf
    simp [surface_element_pointer_leave, heq]
  · subst hf
    simp [surface_element_pointer_leave, hne]

/-- C6 witness: with root 3 mapping to 4: no focused region stays none;
focused region 3 with backing 4 is cleared; focused region 3 with
backing 99 is left focused. -/
theorem surface_pointer_leave_spec_witness :
    surface_element_pointer_leave (fun n => n + 1) none (some 4) = none ∧
    surface_element_pointer_leave (fun n => n + 1) (some 3) (some 4) = none ∧
    surface_element_pointer_leave (fun n => n + 1) (some 3) (some 99) = some 3 :=
  ⟨(surface_pointer_leave_spec (fun n => n + 1) none (some 4)).1 rfl,
   (surface_pointer_leave_spec (fun n => n + 1) (some 3) (some 4)).2.1 3 rfl
     (by decide),
   (surface_pointer_leave_spec (fun n => n + 1) (some 3) (some 99)).2.2 3 rfl
     (by decide)⟩

/- ================= Extents box accessors (surface.c) ==================== -/

/-- The wlr_box returned by wlr_surface_get_extends: origin and size of the
extents of the surface and its subsurfaces. -/
structure wlr_box where
  x : Int
  y : Int
  width : Int
  height : Int
deriving DecidableEq, Repr

/-- Translation of _wlmtk_surface_element_get_dimensions (surface.c lines
153-169): writes the extents box directly as
(left, top, right, bottom) = (box.x, box.y, box.width, box.height). -/
def surface_element_get_dimensions (box : wlr_box) : Int × Int × Int × Int :=
  (box.x, box.y, box.width, box.height)

/-- Translation of _wlmtk_surface_element_get_pointer_area (surface.c lines
182-199): writes (left, top, right, bottom) =
(box.x, box.y, box.width - box.x, box.height - box.y). -/
def surface_element_get_pointer_area (box : wlr_box) : Int × Int × Int × Int :=
  (box.x, box.y, box.width - box.x, box.height - box.y)

/-- C10: get_dimensions returns the extents box as (x, y, width, height)
while get_pointer_area returns (x, y, width - x, height - y); the two
methods agree on a given extents box exactly when the extents origin is
(0,0). -/
theorem surface_dimensions_vs_pointer_area (box : wlr_box) :
    surface_element_get_dimensions box =
      (box.x, box.y, box.width, box.height) ∧
    surface_element_get_pointer_area box =
      (box.x, box.y, box.width - box.x, box.height - box.y) ∧
    (surface_element_get_dimensions box = surface_element_get_pointer_area box ↔
      box.x = 0 ∧ box.y = 0) := by
  refine ⟨rfl, rfl, ?_⟩
  simp only [surface_element_get_dimensions, surface_element_get_pointer_area,
    Prod.mk.injEq, true_and]
  constructor
  · rintro ⟨hw, hh⟩
    omega
  · rintro ⟨hx, hy⟩
    constructor <;> omega
